import Mathlib

/-!
Verification development for the etrace extraction-to-domain conversion
pipeline (`src/model/github/event.py`, `src/model/github/converters.py`,
`src/model/github/repository.py`, `src/model/github/enums.py`,
`src/service/github_api.py`).

The Python data is shallowly embedded: untyped Python values become the
inductive `PyVal`; Python dicts become association lists `PyDict` (Python
dicts have unique keys and preserve insertion order, which an association
list built once, left to right, reproduces); raising code becomes
`Except PyErr`.  The ambient clock (`datetime.now()`) is passed explicitly
as a `now : PyVal` argument, so that determinism and clock-independence
are provable rather than assumed.
-/

/-- A Python runtime value as used by the pipeline: `None`, booleans,
integers, strings, lists, dicts (string keys, as in the JSON-shaped records
the pipeline consumes), and datetime objects.  A `datetime` is carried as an
opaque tag string: the pipeline never inspects components of a datetime, it
only stores and compares whole values. -/
inductive PyVal where
  | none
  | bool (b : Bool)
  | int (n : Int)
  | str (s : String)
  | list (xs : List PyVal)
  | dict (kvs : List (String × PyVal))
  | dtime (t : String)

/-- A Python dict with string keys: an insertion-ordered association list. -/
abbrev PyDict := List (String × PyVal)

/-- Errors raised by the embedded code, mirroring the Python exception
classes that the sources can raise. -/
inductive PyErr where
  | keyError (k : String)
  | valueError
  | typeError
  | attributeError
  | validationError
deriving DecidableEq

/-- First binding of a key in a dict (Python dict lookup; keys are unique in
a genuine Python dict, so first-match is exact). -/
def alook : PyDict → String → Option PyVal
  | [], _ => Option.none
  | (k, v) :: rest, key => if k = key then Option.some v else alook rest key

/-- `d.get(key, default)` — lookup with a default. -/
def lookupD (d : PyDict) (key : String) (default : PyVal) : PyVal :=
  (alook d key).getD default

/-- The keys of a dict, in insertion order. -/
def keysOf (d : PyDict) : List String := d.map Prod.fst

/-- Python truthiness (`bool(v)`) for the embedded values. -/
def truthy : PyVal → Bool
  | .none => false
  | .bool b => b
  | .int n => n ≠ 0
  | .str s => s ≠ ""
  | .list xs => !xs.isEmpty
  | .dict kvs => !kvs.isEmpty
  | .dtime _ => true

/-- Python `a or b`: `a` when truthy, else `b`. -/
def pyOr (a b : PyVal) : PyVal := if truthy a then a else b

/-- Python `a or None` (used for `data.get(k) or None` normalisations). -/
def pyOrNone (a : PyVal) : PyVal := if truthy a then a else .none

/-- Python `s or "z"` on strings: the string when non-empty, else the default. -/
def strOr (s d : String) : String := if s = "" then d else s

/-- Digit-list value, `Option.none` when empty or a non-digit occurs. -/
def digitsVal (cs : List Char) : Option Nat :=
  if cs ≠ [] ∧ cs.all Char.isDigit then
    Option.some (cs.foldl (fun a c => a * 10 + (c.toNat - 48)) 0)
  else Option.none

/-- Strip leading and trailing whitespace (models `str.strip` as applied by
`int(...)` to its string argument). -/
def pyTrim (s : String) : String :=
  ⟨((s.data.dropWhile Char.isWhitespace).reverse.dropWhile Char.isWhitespace).reverse⟩

/-- Parse an integer the way Python's `int(str)` does on the fragment the
pipeline exercises: optional surrounding whitespace, optional sign, then a
non-empty run of decimal digits.  (Underscore grouping is not exercised by
the sources and is not modelled.) -/
def pyIntOfStr (s : String) : Option Int :=
  match (pyTrim s).data with
  | '-' :: ds => (digitsVal ds).map (fun n => -(n : Int))
  | '+' :: ds => (digitsVal ds).map (fun n => (n : Int))
  | ds => (digitsVal ds).map (fun n => (n : Int))

/-- The `int(v)` builtin: identity on ints, `True`/`False` are 1/0 (bool is
an int subtype in Python), strings are parsed (ValueError when malformed),
anything else is a TypeError.  `None` in particular raises TypeError. -/
def pyIntV : PyVal → Except PyErr Int
  | .int n => .ok n
  | .bool b => .ok (if b then 1 else 0)
  | .str s =>
    match pyIntOfStr s with
    | Option.some n => .ok n
    | Option.none => .error .valueError
  | _ => .error .typeError

/-- Replace every occurrence of the character `c` by `rep` (models
`str.replace` for the single-character patterns `","` and `"Z"` that the
sources use). -/
def replaceChar (s : String) (c : Char) (rep : String) : String :=
  ⟨s.data.foldr (fun ch acc => if ch = c then rep.data ++ acc else ch :: acc) []⟩

/-- `str(v)` for the embedded values.  Scalars are rendered exactly as
Python renders them; the container renderings are placeholders, marked as
such, because no source path applies `str()` to a container. -/
def pyStrOf : PyVal → String
  | .none => "None"
  | .bool b => if b then "True" else "False"
  | .int n => toString n
  | .str s => s
  | .dtime t => t
  | .list _ => "[...]"
  | .dict _ => "\x7b...\x7d"

/-- CPython's builtin `hash`.  Within one process `hash` is a deterministic
function of its argument (string hashing is seeded per process; only the
within-process determinism and the unhashability of lists/dicts matter to
the pipeline, so the string branch is a concrete stand-in polynomial hash).
`hash(n) = n` for the small ints the records carry. -/
def pyHashV : PyVal → Except PyErr Int
  | .str s => .ok ((s.data.foldl (fun a c => (a * 131 + c.toNat) % 2305843009213693951) 7 : Nat) : Int)
  | .int n => .ok n
  | .bool b => .ok (if b then 1 else 0)
  | .none => .ok 0
  | .dtime t => .ok ((t.data.foldl (fun a c => (a * 131 + c.toNat) % 2305843009213693951) 7 : Nat) : Int)
  | .list _ => .error .typeError
  | .dict _ => .error .typeError

/-! ### `src/model/github/enums.py` -/

/-- `ModelType(StrEnum)` from `enums.py`: its only members are `ACTIVITY`,
`REPOSITORY` and `USER_PROFILE`.  There is no `EVENT` member. -/
inductive ModelType where
  | activity
  | repository
  | user_profile
deriving DecidableEq

/-! ### `src/model/github/converters.py` -/

/-- The integer coercion inlined in `UserProfileConverter.convert`
(lines 58-61): `int(<got value> or '0')`, where the caller passes the value
of `data.get(field, '0')`. -/
def userStatInt (v : PyVal) : Except PyErr Int :=
  pyIntV (pyOr v (.str "0"))

/-- The integer coercion inlined in `RepositoryConverter.convert`
(lines 107-110 and 129-131): `int(str(<got value>).replace(',', '') or '0')`,
where the caller passes the value of `data.get(field, '0')`. -/
def repoCountInt (v : PyVal) : Except PyErr Int :=
  pyIntV (.str (strOr (replaceChar (pyStrOf v) ',' "") "0"))

/-- `UserProfileConverter.convert`.  `now` is the ambient clock: the two
`datetime.now()` calls on lines 47-48 produce it.  Output keys follow the
source's dict literal order; the four stats coercions are the only raising
steps. -/
def userProfileConvert (now : PyVal) (data : PyDict) : Except PyErr PyDict := do
  let username0 := lookupD data "username" (.str "")
  let username :=
    if truthy username0 then username0
    else lookupD data "login" (lookupD data "name" (.str "unknown"))
  let followers ← userStatInt (lookupD data "followers" (.str "0"))
  let following ← userStatInt (lookupD data "following" (.str "0"))
  let publicRepos ← userStatInt (lookupD data "public_repos" (.str "0"))
  let publicGists ← userStatInt (lookupD data "public_gists" (.str "0"))
  .ok [
    ("id", username),
    ("username", username),
    ("name", lookupD data "display_name" (.str "")),
    ("bio", lookupD data "bio" (.str "")),
    ("avatar_url", pyOrNone (lookupD data "avatar_url" .none)),
    ("gravatar_id", .str ""),
    ("location", lookupD data "location" (.str "")),
    ("company", lookupD data "company" (.str "")),
    ("hireable", .bool true),
    ("created_at", now),
    ("updated_at", now),
    ("type", lookupD data "account_type" (.str "User")),
    ("site_admin", .bool false),
    ("social_links", .dict [
      ("website", lookupD data "website" .none),
      ("twitter", lookupD data "twitter" .none),
      ("email", lookupD data "email" .none)]),
    ("stats", .dict [
      ("followers", .int followers),
      ("following", .int following),
      ("public_repos", .int publicRepos),
      ("public_gists", .int publicGists),
      ("private_repos", .int 0),
      ("owned_private_repos", .int 0),
      ("total_private_repos", .int 0),
      ("collaborators", .int 0)]),
    ("html_url", .str ("https://github.com/" ++ pyStrOf username)),
    ("organizations", .list [])]

/-- `owner_data.get(...)` requires `owner_data` to be a dict (a `.get`
attribute access on any other value raises AttributeError). -/
def asDictAttr : PyVal → Except PyErr PyDict
  | .dict d => .ok d
  | _ => .error .attributeError

/-- Python `v == "s"` where the right-hand side is a string literal:
true exactly for the equal string, false for every non-string value. -/
def pyEqStr (v : PyVal) (s : String) : Bool :=
  match v with
  | .str t => t = s
  | _ => false

/-- `RepositoryConverter.convert`.  `now` is the ambient clock (the
`datetime.now()` defaults on lines 103-105).  Python evaluates the default
argument of `dict.get` eagerly, so the `hash(...)` and `int(...)` fallback
expressions run — and can raise — even when the looked-up key is present;
the embedding computes them up front accordingly.  Output keys follow the
source's dict literal order. -/
def repoConvert (now : PyVal) (data : PyDict) : Except PyErr PyDict := do
  let htmlUrl := pyOr (lookupD data "html_url" (.str ""))
    (pyOr (lookupD data "url" (.str "")) (.str "https://github.com/unknown"))
  let cloneUrl := pyOr (lookupD data "clone_url" (.str "")) htmlUrl
  let ownerData ← asDictAttr (lookupD data "owner" (.dict []))
  let ownerLogin := pyOr (lookupD ownerData "login" (.str ""))
    (pyOr (lookupD data "owner_username" (.str "")) (.str "unknown"))
  let ownerAvatarUrl := pyOrNone (lookupD ownerData "avatar_url" (.str ""))
  let ownerHtmlUrl := pyOr (lookupD ownerData "html_url" (.str ""))
    (.str ("https://github.com/" ++ pyStrOf ownerLogin))
  let language0 := pyOrNone (lookupD data "language" (.str ""))
  let language := if pyEqStr language0 "" then PyVal.none else language0
  let nameHash ← pyHashV (lookupD data "name" (.str "unknown"))
  let idDefault := PyVal.int nameHash
  let stars ← repoCountInt (lookupD data "stars" (.str "0"))
  let watchers ← repoCountInt (lookupD data "watchers" (.str "0"))
  let forks ← repoCountInt (lookupD data "forks" (.str "0"))
  let scount := lookupD data "stargazers_count" (.int stars)
  let wcount := lookupD data "watchers_count" (.int watchers)
  let fcount := lookupD data "forks_count" (.int forks)
  let statsDefault := PyVal.dict [
    ("stargazers_count", scount),
    ("watchers_count", wcount),
    ("forks_count", fcount),
    ("open_issues_count", lookupD data "open_issues_count" (.int 0)),
    ("network_count", lookupD data "network_count" (.int 0)),
    ("subscribers_count", lookupD data "subscribers_count" (.int 0))]
  .ok [
    ("id", .str (pyStrOf (lookupD data "id" idDefault))),
    ("node_id", lookupD data "node_id"
      (.str ("R_" ++ pyStrOf (lookupD data "id" idDefault)))),
    ("name", lookupD data "name" (.str "")),
    ("full_name", lookupD data "full_name" (lookupD data "name" (.str ""))),
    ("description", lookupD data "description" (.str "")),
    ("private", lookupD data "private" (.bool false)),
    ("url", htmlUrl),
    ("html_url", htmlUrl),
    ("clone_url", if pyEqStr cloneUrl "https://github.com/unknown" then PyVal.none else cloneUrl),
    ("created_at", lookupD data "created_at" now),
    ("updated_at", lookupD data "updated_at" now),
    ("pushed_at", lookupD data "pushed_at" now),
    ("size", lookupD data "size" (.int 0)),
    ("stargazers_count", scount),
    ("watchers_count", wcount),
    ("language", language),
    ("forks_count", fcount),
    ("archived", lookupD data "archived" (.bool false)),
    ("disabled", lookupD data "disabled" (.bool false)),
    ("open_issues_count", lookupD data "open_issues_count" (.int 0)),
    ("license", lookupD data "license" .none),
    ("allow_forking", lookupD data "allow_forking" (.bool true)),
    ("is_template", lookupD data "is_template" (.bool false)),
    ("visibility", lookupD data "visibility" (.str "public")),
    ("default_branch", lookupD data "default_branch" (.str "main")),
    ("owner", .dict [
      ("username", ownerLogin),
      ("login", ownerLogin),
      ("type", lookupD ownerData "type" (.str "User")),
      ("avatar_url", ownerAvatarUrl),
      ("html_url", ownerHtmlUrl)]),
    ("topics", .dict [("topics", lookupD data "topics" (.list []))]),
    ("stats", lookupD data "stats" statsDefault)]

/-- `DataConverter.convert_extraction_to_domain`.  The `elif model_type ==
ModelType.EVENT` comparison on line 20 accesses the member `EVENT`, which
does not exist in `ModelType` — in Python that attribute access raises
`AttributeError` before the comparison can happen, so every `model_type`
other than `USER_PROFILE` and `REPOSITORY` raises instead of reaching the
`EventConverter` call or the final `return data`. -/
def convertExtractionToDomain (now : PyVal) (mt : ModelType) (data : PyDict) :
    Except PyErr PyDict :=
  match mt with
  | .user_profile => userProfileConvert now data
  | .repository => repoConvert now data
  | .activity => .error .attributeError

/-- `SchemaToModelConverter.convert_batch`: the per-record loop appends each
successful conversion and swallows (prints and skips) any exception. -/
def convertBatch (now : PyVal) (mt : ModelType) (records : List PyDict) : List PyDict :=
  records.foldl (fun acc r =>
    match convertExtractionToDomain now mt r with
    | .ok c => acc ++ [c]
    | .error _ => acc) []

/-! ### `src/model/github/event.py` — payload variant catalog and dispatch

The seventeen payload classes are pydantic v2 models.  Construction
`Cls(**payload_data)` validates each declared field in declaration order
(lax mode) and, because the base `EventPayload.Config` sets
`extra = "allow"` (inherited by every subclass), keeps every undeclared
field unchanged as an extra.  The embedding represents a constructed
payload as its variant tag plus the validated declared fields plus the
extras. -/

/-- The variant tag: one case per payload class keyed by the dispatch
chain of `Event.from_api_response`, plus `generic` for the base
`EventPayload` catch-all. -/
inductive VTag where
  | push | watch | create | fork | issues | pullRequest
  | issueComment | commitComment | prReview | prReviewComment
  | delete | release | gollum | member | publicEvt | sponsorship
  | generic
deriving DecidableEq

/-- Declared-field types occurring in the payload classes. -/
inductive FTy where
  | optStr
  | optInt
  | optList
  | optDict
  | strD (d : String)

/-- pydantic v2 lax validation of one declared field value.
`Optional[str]` accepts `None` or a string (ints are not coerced to
strings in v2); `Optional[int]` accepts `None`, an int, or an
int-parseable string (bools are rejected for int fields in v2);
`Optional[list]` / `Optional[Dict]` accept `None` or the matching
container; `str` with a default accepts only a string. -/
def coerceField : FTy → PyVal → Except PyErr PyVal
  | .optStr, .none => .ok .none
  | .optStr, .str s => .ok (.str s)
  | .optStr, _ => .error .validationError
  | .optInt, .none => .ok .none
  | .optInt, .int n => .ok (.int n)
  | .optInt, .str s =>
    match pyIntOfStr s with
    | Option.some n => .ok (.int n)
    | Option.none => .error .validationError
  | .optInt, _ => .error .validationError
  | .optList, .none => .ok .none
  | .optList, .list xs => .ok (.list xs)
  | .optList, _ => .error .validationError
  | .optDict, .none => .ok .none
  | .optDict, .dict kvs => .ok (.dict kvs)
  | .optDict, _ => .error .validationError
  | .strD _, .str s => .ok (.str s)
  | .strD _, _ => .error .validationError

/-- Default value of an absent declared field.  `commits` and `pages` carry
`Field(default_factory=list)`, embedded as `optList`; every other optional
field defaults to `None`, and `strD d` to its literal default. -/
def defaultOf : FTy → PyVal
  | .optStr => .none
  | .optInt => .none
  | .optList => .list []
  | .optDict => .none
  | .strD d => .str d

/-- Declared fields of each payload class, in pydantic's field order
(the inherited `action: Optional[str] = None` first, then the class's own
fields in declaration order; `WatchEventPayload` overrides `action` with
`action: str = "started"`). -/
def variantSpec : VTag → List (String × FTy)
  | .push => [("action", .optStr), ("push_id", .optInt), ("size", .optInt),
      ("distinct_size", .optInt), ("ref", .optStr), ("head", .optStr),
      ("before", .optStr), ("commits", .optList)]
  | .watch => [("action", .strD "started")]
  | .create => [("action", .optStr), ("ref", .optStr), ("ref_type", .optStr),
      ("master_branch", .optStr), ("description", .optStr), ("pusher_type", .optStr)]
  | .fork => [("action", .optStr), ("forkee", .optDict)]
  | .issues => [("action", .optStr), ("issue", .optDict)]
  | .pullRequest => [("action", .optStr), ("number", .optInt), ("pull_request", .optDict)]
  | .issueComment => [("action", .optStr), ("issue", .optDict), ("comment", .optDict)]
  | .commitComment => [("action", .optStr), ("comment", .optDict)]
  | .prReview => [("action", .optStr), ("pull_request", .optDict), ("review", .optDict)]
  | .prReviewComment => [("action", .optStr), ("pull_request", .optDict), ("comment", .optDict)]
  | .delete => [("action", .optStr), ("ref", .optStr), ("ref_type", .optStr),
      ("pusher_type", .optStr)]
  | .release => [("action", .optStr), ("release", .optDict)]
  | .gollum => [("action", .optStr), ("pages", .optList)]
  | .member => [("action", .optStr), ("member", .optDict)]
  | .publicEvt => [("action", .optStr)]
  | .sponsorship => [("action", .optStr), ("sponsorship", .optDict)]
  | .generic => [("action", .optStr)]

/-- A constructed payload object: its class (tag), its validated declared
fields, and the extras kept by `extra = "allow"`. -/
structure PayloadObj where
  tag : VTag
  fields : PyDict
  extra : PyDict

/-- Validate the declared fields of a payload class against the incoming
field map: a present key is coerced, an absent one takes its default. -/
def mkFields : List (String × FTy) → PyDict → Except PyErr PyDict
  | [], _ => .ok []
  | (n, ty) :: rest, pd => do
    let v ← match alook pd n with
      | Option.some v => coerceField ty v
      | Option.none => .ok (defaultOf ty)
    let tail ← mkFields rest pd
    .ok ((n, v) :: tail)

/-- `Cls(**pd)` for the payload class tagged `t`: validate declared fields,
keep every undeclared field as an extra. -/
def mkVariant (t : VTag) (pd : PyDict) : Except PyErr PayloadObj := do
  let fields ← mkFields (variantSpec t) pd
  .ok ⟨t, fields, pd.filter (fun kv => (variantSpec t).all (fun f => f.1 ≠ kv.1))⟩

/-- The event-type dispatch chain of `Event.from_api_response`
(lines 142-175): sixteen exact string comparisons, and the base
`EventPayload` for everything else. -/
def tableTag (s : String) : VTag :=
  if s = "PushEvent" then .push
  else if s = "WatchEvent" then .watch
  else if s = "CreateEvent" then .create
  else if s = "ForkEvent" then .fork
  else if s = "IssuesEvent" then .issues
  else if s = "PullRequestEvent" then .pullRequest
  else if s = "IssueCommentEvent" then .issueComment
  else if s = "CommitCommentEvent" then .commitComment
  else if s = "PullRequestReviewEvent" then .prReview
  else if s = "PullRequestReviewCommentEvent" then .prReviewComment
  else if s = "DeleteEvent" then .delete
  else if s = "ReleaseEvent" then .release
  else if s = "GollumEvent" then .gollum
  else if s = "MemberEvent" then .member
  else if s = "PublicEvent" then .publicEvt
  else if s = "SponsorshipEvent" then .sponsorship
  else .generic

/-- Payload selection of `Event.from_api_response`: the `event_type` value
is `data.get("type", "")`; the `==` comparisons in the chain are false for
every non-string value, which therefore falls through to the base
`EventPayload` branch exactly like an unknown string. -/
def dispatchPayload (eventType : PyVal) (pd : PyDict) : Except PyErr PayloadObj :=
  mkVariant (match eventType with | .str s => tableTag s | _ => VTag.generic) pd

/-- Attribute access on a constructed payload: a declared field first, an
extra field otherwise (pydantic exposes both). -/
def payloadGet (p : PayloadObj) (k : String) : Option PyVal :=
  match alook p.fields k with
  | Option.some v => Option.some v
  | Option.none => alook p.extra k

/-! ### `src/model/github/event.py` — the Event aggregate -/

/-- `data[key]`: Python subscript, raising `KeyError` when absent. -/
def item (d : PyDict) (k : String) : Except PyErr PyVal :=
  match alook d k with
  | Option.some v => .ok v
  | Option.none => .error (.keyError k)

/-- `Cls(**v)` requires `v` to be a mapping; `**` on any other value raises
TypeError. -/
def asDictStar : PyVal → Except PyErr PyDict
  | .dict d => .ok d
  | _ => .error .typeError

/-- `v.replace("Z", "+00:00")`: the method lookup raises AttributeError on
a non-string value. -/
def strAttrReplace : PyVal → Except PyErr String
  | .str s => .ok (replaceChar s 'Z' "+00:00")
  | _ => .error .attributeError

/-- Shape check modelling `datetime.fromisoformat`'s acceptance on the
date-time strings this pipeline carries: four year digits, a dash, two
month digits, a dash, two day digits, then either nothing or a `T`/space
separated time part.  (Finer-grained time validation is never exercised by
the sources, every concrete record here uses a plainly valid timestamp.) -/
def isoLike (s : String) : Bool :=
  match s.data with
  | y1 :: y2 :: y3 :: y4 :: '-' :: m1 :: m2 :: '-' :: d1 :: d2 :: rest =>
    y1.isDigit && y2.isDigit && y3.isDigit && y4.isDigit &&
      m1.isDigit && m2.isDigit && d1.isDigit && d2.isDigit &&
      (match rest with
       | [] => true
       | 'T' :: _ => true
       | ' ' :: _ => true
       | _ => false)
  | _ => false

/-- `datetime.fromisoformat(s)`: the parsed datetime is carried as its
(already Z-normalised) source string; a malformed string raises ValueError. -/
def pyFromIsoformat (s : String) : Except PyErr String :=
  if isoLike s then .ok s else .error .valueError

/-- pydantic v2 lax validation of a required `str` field: only a string is
accepted (no int-to-str coercion in v2). -/
def reqStrV : PyVal → Except PyErr String
  | .str s => .ok s
  | _ => .error .validationError

/-- pydantic v2 lax validation of a required `int` field: an int, or an
int-parseable string; bools are rejected. -/
def laxIntV : PyVal → Except PyErr Int
  | .int n => .ok n
  | .str s =>
    match pyIntOfStr s with
    | Option.some n => .ok n
    | Option.none => .error .validationError
  | _ => .error .validationError

/-- pydantic v2 lax validation of a `bool` field: a bool, the ints 0/1, or
one of the recognised boolean strings (case-insensitive). -/
def laxBoolV : PyVal → Except PyErr Bool
  | .bool b => .ok b
  | .int 0 => .ok false
  | .int 1 => .ok true
  | .str s =>
    let t : String := ⟨s.data.map Char.toLower⟩
    if t = "true" || t = "t" || t = "yes" || t = "y" || t = "on" || t = "1" then .ok true
    else if t = "false" || t = "f" || t = "no" || t = "n" || t = "off" || t = "0" then .ok false
    else .error .validationError
  | _ => .error .validationError

/-- pydantic v2 lax validation of an `Optional[str]` field. -/
def optStrV : PyVal → Except PyErr (Option String)
  | .none => .ok Option.none
  | .str s => .ok (Option.some s)
  | _ => .error .validationError

/-- pydantic v2 lax validation of an `Optional[Dict]` field. -/
def optDictV : PyVal → Except PyErr (Option PyDict)
  | .none => .ok Option.none
  | .dict d => .ok (Option.some d)
  | _ => .error .validationError

/-- `EventActor`: `id: int`, `login: str`, `display_login` and
`gravatar_id` optional strings, `url: str`, `avatar_url: str`.  Extra
fields are ignored (pydantic's default). -/
structure ActorObj where
  id : Int
  login : String
  displayLogin : Option String
  gravatarId : Option String
  url : String
  avatarUrl : String

/-- `EventActor(**d)`: validate the declared fields in declaration order. -/
def mkActor (d : PyDict) : Except PyErr ActorObj := do
  let id ← laxIntV (lookupD d "id" .none)
  let login ← reqStrV (lookupD d "login" .none)
  let displayLogin ← optStrV (lookupD d "display_login" .none)
  let gravatarId ← optStrV (lookupD d "gravatar_id" .none)
  let url ← reqStrV (lookupD d "url" .none)
  let avatarUrl ← reqStrV (lookupD d "avatar_url" .none)
  .ok ⟨id, login, displayLogin, gravatarId, url, avatarUrl⟩

/-- `EventRepo`: `id: int`, `name: str`, `url: str`. -/
structure RepoRef where
  id : Int
  name : String
  url : String

/-- `EventRepo(**d)`. -/
def mkRepoRef (d : PyDict) : Except PyErr RepoRef := do
  let id ← laxIntV (lookupD d "id" .none)
  let name ← reqStrV (lookupD d "name" .none)
  let url ← reqStrV (lookupD d "url" .none)
  .ok ⟨id, name, url⟩

/-- The `Event` aggregate (the `Union` payload field keeps whichever
payload instance was constructed; v2 does not revalidate model
instances).  `createdAt` carries the parsed datetime's normalised source
string. -/
structure EventObj where
  id : String
  type : String
  actor : ActorObj
  repo : RepoRef
  payload : PayloadObj
  public : Bool
  createdAt : String
  org : Option PyDict

/-- `Event.from_api_response`, in the source's evaluation order: the
payload is dispatched first (lines 139-175); then the constructor's
arguments are evaluated left to right — `data["id"]`, `data["type"]`,
`EventActor(**data["actor"])`, `EventRepo(**data["repo"])`,
`data["public"]`, the `created_at` parse, `data.get("org")` — and finally
pydantic validates the `Event` fields themselves. -/
def eventFromApiResponse (data : PyDict) : Except PyErr EventObj := do
  let pd ← asDictStar (lookupD data "payload" (.dict []))
  let payload ← dispatchPayload (lookupD data "type" (.str "")) pd
  let idv ← item data "id"
  let tyv ← item data "type"
  let actorv ← item data "actor"
  let actorD ← asDictStar actorv
  let actor ← mkActor actorD
  let repov ← item data "repo"
  let repoD ← asDictStar repov
  let repo ← mkRepoRef repoD
  let pubv ← item data "public"
  let cav ← item data "created_at"
  let caS ← strAttrReplace cav
  let created ← pyFromIsoformat caS
  let orgv := lookupD data "org" .none
  let idS ← reqStrV idv
  let tyS ← reqStrV tyv
  let pub ← laxBoolV pubv
  let org ← optDictV orgv
  .ok ⟨idS, tyS, actor, repo, payload, pub, created, org⟩

/-! ### `src/service/github_api.py` — `get_multiple_user_events`

`fetch_user_events` wraps the selected per-user fetch (one of the
`get_user_*_events` coroutines, which belong to the excluded network
collaborator) and returns `(username, events)`.  The fetch is therefore a
parameter `op`; its `Except` layer models the coroutine raising, its
`Option` layer is the source's `Optional[List[Event]]` result (the fetch
helpers catch their own exceptions and return `None`).
`asyncio.gather(*tasks, return_exceptions=True)` yields one result per
task in task order; the collection loop then skips (logs) exception
results and stores `(username, events)` pairs into the dict. -/

/-- Set `d[k] = v` on an insertion-ordered dict: overwrite in place when
the key exists, append otherwise. -/
def dictSet {α : Type} (d : List (String × α)) (k : String) (v : α) : List (String × α) :=
  if d.any (fun kv => kv.1 = k) then
    d.map (fun kv => if kv.1 = k then (k, v) else kv)
  else d ++ [(k, v)]

/-- The per-task results of `asyncio.gather(..., return_exceptions=True)`:
input order, one entry per username, exceptions captured as values. -/
def gatherResults {ε ρ : Type} (op : String → Except ε (Option ρ)) (usernames : List String) :
    List (Except ε (String × Option ρ)) :=
  usernames.map (fun u => (op u).map (fun ev => (u, ev)))

/-- `GitHubAPIService.get_multiple_user_events` (lines 240-270), as the
username-to-events dict it returns: gather everything, then skip exception
results and key the rest by username. -/
def getMultipleUserEvents {ε ρ : Type} (op : String → Except ε (Option ρ))
    (usernames : List String) : List (String × Option ρ) :=
  (gatherResults op usernames).foldl (fun acc r =>
    match r with
    | .error _ => acc
    | .ok (u, ev) => dictSet acc u ev) []

/-! ### `src/model/github/repository.py` — `Repository.from_api_response` -/

/-- Character-list prefix test. -/
def listPre : List Char → List Char → Bool
  | [], _ => true
  | _ :: _, [] => false
  | a :: as, b :: bs => a = b && listPre as bs

/-- Acceptance of pydantic's `HttpUrl` on the strings this pipeline
carries: an `http://` or `https://` URL.  (pydantic also normalises the
URL text; the pipeline never inspects the normalised form, so the string
is kept as-is.) -/
def httpOk (s : String) : Bool :=
  listPre "http://".data s.data || listPre "https://".data s.data

/-- `Optional[HttpUrl]` validation. -/
def optUrlV : PyVal → Except PyErr (Option String)
  | .none => .ok Option.none
  | .str s => if httpOk s then .ok (Option.some s) else .error .validationError
  | _ => .error .validationError

/-- Required `HttpUrl` validation. -/
def reqUrlV : PyVal → Except PyErr String
  | .str s => if httpOk s then .ok s else .error .validationError
  | _ => .error .validationError

/-- The `RepositoryLanguage` `StrEnum` member values (lowercase member
names, by `auto()`), excluding the `OTHER` catch-all. -/
def languageNames : List String :=
  ["python", "javascript", "typescript", "java", "go", "rust", "cpp", "c",
   "csharp", "php", "ruby", "swift", "kotlin", "dart", "html", "css", "shell"]

/-- The `validate_language` field validator composed with the
`Optional[RepositoryLanguage]` field check: a string maps to the matching
enum member (case-insensitive) or `OTHER`, the empty/whitespace string and
`None` map to `None`, and any other value fails enum validation. -/
def validateLanguage : PyVal → Except PyErr (Option String)
  | .str s =>
    if pyTrim s = "" then .ok Option.none
    else
      let up : String := ⟨s.data.map Char.toUpper⟩
      match languageNames.find? (fun l => (⟨l.data.map Char.toUpper⟩ : String) = up) with
      | Option.some l => .ok (Option.some l)
      | Option.none => .ok (Option.some "other")
  | .none => .ok Option.none
  | _ => .error .validationError

/-- The `parse_datetime` field validator composed with the `datetime`
field check, for a required datetime field: a string is ISO-parsed, with
`datetime.now()` (the `now` tag) as the documented fallback on parse
failure; a datetime value passes through; an int is pydantic's lax
epoch-timestamp coercion (carried as its numeral tag; never exercised);
anything else fails validation. -/
def dtFieldV (now : String) : PyVal → Except PyErr String
  | .str s =>
    let s2 := replaceChar s 'Z' "+00:00"
    if isoLike s2 then .ok s2 else .ok now
  | .dtime t => .ok t
  | .int n => .ok (toString n)
  | _ => .error .validationError

/-- `Optional[datetime]` version of `dtFieldV`. -/
def optDtFieldV (now : String) : PyVal → Except PyErr (Option String)
  | .none => .ok Option.none
  | v => (dtFieldV now v).map Option.some

/-- `Dict[str, int]` validation (the `languages` field). -/
def dictStrIntV : PyVal → Except PyErr (List (String × Int))
  | .dict kvs => kvs.foldrM (fun kv acc => (laxIntV kv.2).map (fun n => (kv.1, n) :: acc)) []
  | _ => .error .validationError

/-- `List[str]` validation (the `topics` field of `RepositoryTopics`). -/
def listStrV : PyVal → Except PyErr (List String)
  | .list xs => xs.foldrM (fun x acc => (reqStrV x).map (fun s => s :: acc)) []
  | _ => .error .validationError

/-- `RepositoryOwner`. -/
structure OwnerObj where
  username : String
  avatarUrl : Option String
  type : String
  profileUrl : Option String

/-- `RepositoryLicense`. -/
structure LicenseObj where
  key : String
  name : String
  spdxId : Option String
  url : Option String

/-- `RepositoryStats` (the five fields `from_api_response` never sets keep
their declared default 0). -/
structure StatsObj where
  stars : Int
  forks : Int
  watchers : Int
  openIssues : Int
  openPullRequests : Int
  contributors : Int
  commits : Int
  branches : Int
  releases : Int

/-- `Repository`, as constructed by `from_api_response` (the `parent` and
`source` fields keep their `None` default there and are omitted). -/
structure RepoOut where
  id : String
  name : String
  fullName : String
  description : Option String
  url : String
  cloneUrl : Option String
  sshUrl : Option String
  homepage : Option String
  owner : OwnerObj
  isPrivate : Bool
  fork : Bool
  archived : Bool
  disabled : Bool
  template : Bool
  language : Option String
  languages : List (String × Int)
  size : Int
  defaultBranch : String
  license : Option LicenseObj
  topics : List String
  stats : StatsObj
  createdAt : String
  updatedAt : String
  pushedAt : Option String
  isForkEnhanced : Bool
  parentFullName : Option String

/-- The license block of `Repository.from_api_response` (lines 179-188):
when `data.get('license')` is truthy, build a `RepositoryLicense` from it
(`.get` access requires a dict). -/
def licenseFrom (data : PyDict) : Except PyErr (Option LicenseObj) :=
  if truthy (lookupD data "license" .none) then do
    let ld ← asDictAttr (lookupD data "license" .none)
    let key ← reqStrV (lookupD ld "key" (.str ""))
    let name ← reqStrV (lookupD ld "name" (.str ""))
    let spdx ← optStrV (lookupD ld "spdx_id" .none)
    let lurl ← optUrlV (lookupD ld "url" .none)
    pure (Option.some (⟨key, name, spdx, lurl⟩ : LicenseObj))
  else pure Option.none

/-- The fork-enhancement block of `Repository.from_api_response`
(lines 190-225): when the record is a fork and carries parent data, the
parent's `full_name` is remembered and the parent's topics, description
and statistics override empty ones.  Returns
`(parent_full_name, topics_list, description, (stars, forks, watchers,
open_issues))` either way. -/
def forkEnhance (data : PyDict) :
    Except PyErr (PyVal × PyVal × PyVal × (PyVal × PyVal × PyVal × PyVal)) :=
  let description0 := lookupD data "description" .none
  let topics0 := lookupD data "topics" (.list [])
  if truthy (lookupD data "fork" (.bool false))
      && truthy (lookupD data "parent" .none) then do
    let pd ← asDictAttr (lookupD data "parent" .none)
    let topics1 := if !truthy topics0 && truthy (lookupD pd "topics" .none)
      then lookupD pd "topics" (.list []) else topics0
    let description1 := if !truthy description0 && truthy (lookupD pd "description" .none)
      then lookupD pd "description" .none else description0
    pure (lookupD pd "full_name" .none, topics1, description1,
      (lookupD pd "stargazers_count" (.int 0),
       lookupD pd "forks_count" (.int 0),
       lookupD pd "watchers_count" (.int 0),
       lookupD pd "open_issues_count" (.int 0)))
  else
    pure (PyVal.none, topics0, description0,
      (lookupD data "stargazers_count" (.int 0),
       lookupD data "forks_count" (.int 0),
       lookupD data "watchers_count" (.int 0),
       lookupD data "open_issues_count" (.int 0)))

/-- `Repository.from_api_response` (lines 168-257).  `now` is the ambient
clock consulted by the datetime validator's fallback.  Construction order
follows the source: the owner, license, fork-enhancement, stats and topics
objects first, then the `Repository` fields in declaration order. -/
def repoFromApiResponse (now : String) (data : PyDict) : Except PyErr RepoOut := do
  let ownerData ← asDictAttr (lookupD data "owner" (.dict []))
  let ownerUsername ← reqStrV (lookupD ownerData "login" (.str ""))
  let ownerAvatar ← optUrlV (lookupD ownerData "avatar_url" .none)
  let ownerType ← reqStrV (lookupD ownerData "type" (.str "User"))
  let ownerProfile ← optUrlV (lookupD ownerData "html_url" .none)
  let owner : OwnerObj := ⟨ownerUsername, ownerAvatar, ownerType, ownerProfile⟩
  let license ← licenseFrom data
  let enhanced := truthy (lookupD data "fork" (.bool false))
    && truthy (lookupD data "parent" .none)
  let enh ← forkEnhance data
  let stars ← laxIntV enh.2.2.2.1
  let forks ← laxIntV enh.2.2.2.2.1
  let watchers ← laxIntV enh.2.2.2.2.2.1
  let openIssues ← laxIntV enh.2.2.2.2.2.2
  let stats : StatsObj := ⟨stars, forks, watchers, openIssues, 0, 0, 0, 0, 0⟩
  let topics ← listStrV enh.2.1
  let id := pyStrOf (lookupD data "id" (.str ""))
  let name ← reqStrV (lookupD data "name" (.str ""))
  let fullName ← reqStrV (lookupD data "full_name" (.str ""))
  let description ← optStrV enh.2.2.1
  let url ← reqUrlV (lookupD data "html_url" (.str ""))
  let cloneUrl ← optUrlV (lookupD data "clone_url" .none)
  let sshUrl ← optStrV (lookupD data "ssh_url" .none)
  let homepage ← optStrV (lookupD data "homepage" .none)
  let priv ← laxBoolV (lookupD data "private" (.bool false))
  let forkB ← laxBoolV (lookupD data "fork" (.bool false))
  let archived ← laxBoolV (lookupD data "archived" (.bool false))
  let disabled ← laxBoolV (lookupD data "disabled" (.bool false))
  let template ← laxBoolV (lookupD data "is_template" (.bool false))
  let language ← validateLanguage (lookupD data "language" .none)
  let languages ← dictStrIntV (lookupD data "languages" (.dict []))
  let size ← laxIntV (lookupD data "size" (.int 0))
  let defaultBranch ← reqStrV (lookupD data "default_branch" (.str "main"))
  let createdAt ← dtFieldV now (lookupD data "created_at" (.str ""))
  let updatedAt ← dtFieldV now (lookupD data "updated_at" (.str ""))
  let pushedAt ← optDtFieldV now (lookupD data "pushed_at" .none)
  let parentFullName ← optStrV (if enhanced then enh.1 else .none)
  .ok ⟨id, name, fullName, description, url, cloneUrl, sshUrl, homepage, owner,
    priv, forkB, archived, disabled, template, language, languages, size,
    defaultBranch, license, topics, stats, createdAt, updatedAt, pushedAt,
    enhanced, parentFullName⟩

/-! ### Concrete records and extraction helpers used by the theorems -/

/-- Key presence pattern accepted by the Generic (`EventPayload`) variant:
its only declared field `action` is absent, `None`, or a string. -/
def genericOk (pd : PyDict) : Bool :=
  match alook pd "action" with
  | Option.none => true
  | Option.some .none => true
  | Option.some (.str _) => true
  | Option.some _ => false

/-- Placeholder payload for `Option.getD` extraction of computed results. -/
def payDefault : PayloadObj := ⟨.generic, [], []⟩

/-- The payload dispatched for an unseen event type with one extra field. -/
def c1pay : PayloadObj :=
  (dispatchPayload (.str "BrandNewEvent") [("foo", .int 1)]).toOption.getD payDefault

/-- A well-formed WatchEvent API record (the §8 end-to-end example). -/
def watchRec : PyDict := [
  ("id", .str "1"), ("type", .str "WatchEvent"),
  ("actor", .dict [("id", .int 9), ("login", .str "octo"),
    ("url", .str "https://api.github.com/users/octo"),
    ("avatar_url", .str "https://avatars.githubusercontent.com/u/9")]),
  ("repo", .dict [("id", .int 4), ("name", .str "octo/r"),
    ("url", .str "https://api.github.com/repos/octo/r")]),
  ("payload", .dict []),
  ("public", .bool true),
  ("created_at", .str "2024-01-01T00:00:00Z")]

/-- Placeholder event for `Option.getD` extraction of computed results. -/
def evDefault : EventObj :=
  ⟨"", "", ⟨0, "", Option.none, Option.none, "", ""⟩, ⟨0, "", ""⟩, payDefault,
    false, "", Option.none⟩

/-- The event assembled from `watchRec`. -/
def c2ev : EventObj := (eventFromApiResponse watchRec).toOption.getD evDefault

/-- `watchRec` with type `PushEvent` and a malformed `payload.size`:
all six required keys present. -/
def c4pushRec : PyDict := [
  ("id", .str "1"), ("type", .str "PushEvent"),
  ("actor", .dict [("id", .int 9), ("login", .str "octo"),
    ("url", .str "https://api.github.com/users/octo"),
    ("avatar_url", .str "https://avatars.githubusercontent.com/u/9")]),
  ("repo", .dict [("id", .int 4), ("name", .str "octo/r"),
    ("url", .str "https://api.github.com/repos/octo/r")]),
  ("payload", .dict [("size", .str "abc")]),
  ("public", .bool true),
  ("created_at", .str "2024-01-01T00:00:00Z")]

/-- `c4pushRec` with an unknown event type: `size` is then an extra field
of the Generic payload. -/
def c4fooRec : PyDict := [
  ("id", .str "1"), ("type", .str "SomethingNewEvent"),
  ("actor", .dict [("id", .int 9), ("login", .str "octo"),
    ("url", .str "https://api.github.com/users/octo"),
    ("avatar_url", .str "https://avatars.githubusercontent.com/u/9")]),
  ("repo", .dict [("id", .int 4), ("name", .str "octo/r"),
    ("url", .str "https://api.github.com/repos/octo/r")]),
  ("payload", .dict [("size", .str "abc")]),
  ("public", .bool true),
  ("created_at", .str "2024-01-01T00:00:00Z")]

/-- `watchRec` without `created_at`. -/
def c4missRec : PyDict := [
  ("id", .str "1"), ("type", .str "WatchEvent"),
  ("actor", .dict [("id", .int 9), ("login", .str "octo"),
    ("url", .str "https://api.github.com/users/octo"),
    ("avatar_url", .str "https://avatars.githubusercontent.com/u/9")]),
  ("repo", .dict [("id", .int 4), ("name", .str "octo/r"),
    ("url", .str "https://api.github.com/repos/octo/r")]),
  ("payload", .dict []),
  ("public", .bool true)]

/-- The §8 end-to-end extraction record with comma-formatted followers. -/
def c7rec : PyDict :=
  [("username", .str ""), ("login", .str "octo"), ("followers", .str "1,024")]

/-- The same record with a plain digit string for followers. -/
def c7rec2 : PyDict :=
  [("username", .str ""), ("login", .str "octo"), ("followers", .str "1024")]

/-- The converted output for `c7rec2`. -/
def c7out : PyDict := (userProfileConvert (.dtime "t0") c7rec2).toOption.getD []

/-- A per-key fetch over five users where the third raises. -/
def c5op : String → Except Unit (Option Nat) :=
  fun u => if u = "c" then .error () else .ok (Option.some 1)

/-- The keys of every map `RepositoryConverter.convert` produces (its output
dict literal, in order): a record carrying all of them is already-canonical. -/
def canonicalKeys : List String :=
  ["id", "node_id", "name", "full_name", "description", "private", "url",
   "html_url", "clone_url", "created_at", "updated_at", "pushed_at", "size",
   "stargazers_count", "watchers_count", "language", "forks_count", "archived",
   "disabled", "open_issues_count", "license", "allow_forking", "is_template",
   "visibility", "default_branch", "owner", "topics", "stats"]

/-- An already-canonical record: every canonical key is present. -/
def isCanonical (data : PyDict) : Bool :=
  canonicalKeys.all (fun k => (alook data k).isSome)

/-- A concrete already-canonical repository record. -/
def c8rec : PyDict := [
  ("id", .str "101"), ("node_id", .str "R_101"), ("name", .str "proj"),
  ("full_name", .str "alice/proj"), ("description", .str "d"),
  ("private", .bool false), ("url", .str "https://github.com/alice/proj"),
  ("html_url", .str "https://github.com/alice/proj"), ("clone_url", PyVal.none),
  ("created_at", .dtime "2024-01-01T00:00:00"),
  ("updated_at", .dtime "2024-01-02T00:00:00"),
  ("pushed_at", .dtime "2024-01-03T00:00:00"),
  ("size", .int 10), ("stargazers_count", .int 5), ("watchers_count", .int 5),
  ("language", PyVal.none), ("forks_count", .int 2), ("archived", .bool false),
  ("disabled", .bool false), ("open_issues_count", .int 1),
  ("license", PyVal.none), ("allow_forking", .bool true),
  ("is_template", .bool false), ("visibility", .str "public"),
  ("default_branch", .str "main"),
  ("owner", .dict [("username", .str "alice"), ("login", .str "alice"),
    ("type", .str "User"), ("avatar_url", PyVal.none),
    ("html_url", .str "https://github.com/alice")]),
  ("topics", .dict [("topics", .list [])]),
  ("stats", .dict [])]

/-- A repository record without an `id`. -/
def c8rec2 : PyDict := [("name", .str "proj")]

/-- The converted output for `c8rec2`. -/
def c8out2 : PyDict := (repoConvert (.dtime "t3") c8rec2).toOption.getD []

/-- The process hash of the name in `c8rec2`. -/
def c8hash : Int := (pyHashV (lookupD c8rec2 "name" (.str "unknown"))).toOption.getD 0

/-- An extraction repository record with a known owner, a name, and no
`full_name`. -/
def c9rec : PyDict := [("name", .str "proj"),
  ("owner", .dict [("login", .str "alice")])]

/-- The nested `owner.username` of a converted repository map. -/
def ownerUsernameOf (o : PyDict) : Option PyVal :=
  match alook o "owner" with
  | Option.some (.dict od) => alook od "username"
  | _ => Option.none

/-- The converted output for `c9rec`. -/
def c9out : PyDict := (repoConvert (.dtime "t") c9rec).toOption.getD []

/-- An API repository record whose `full_name` disagrees with
`owner/name`. -/
def c9apiRec : PyDict := [
  ("id", .int 77), ("name", .str "proj"), ("full_name", .str "weird"),
  ("owner", .dict [("login", .str "alice")]),
  ("html_url", .str "https://github.com/alice/proj"),
  ("created_at", .str "2024-01-01T00:00:00Z"),
  ("updated_at", .str "2024-01-02T00:00:00Z")]

/-- Placeholder repository object for `Option.getD` extraction. -/
def repoOutDefault : RepoOut :=
  ⟨"", "", "", Option.none, "", Option.none, Option.none, Option.none,
    ⟨"", Option.none, "", Option.none⟩, false, false, false, false, false,
    Option.none, [], 0, "", Option.none, [], ⟨0, 0, 0, 0, 0, 0, 0, 0, 0⟩,
    "", "", Option.none, false, Option.none⟩

/-- The repository assembled from `c9apiRec`. -/
def c9apiOut : RepoOut := (repoFromApiResponse "NOW" c9apiRec).toOption.getD repoOutDefault

/-- A record whose conversion succeeds, for the batch-isolation witness. -/
def goodRec : PyDict := [("username", .str "u1"), ("followers", .str "3")]


/-! ### Helper lemmas -/

theorem bindOk {ε α β : Type} {x : Except ε α} {f : α → Except ε β} {v : β}
    (h : (x >>= f) = .ok v) : ∃ w, x = .ok w ∧ f w = .ok v := by
  cases x with
  | ok w => exact ⟨w, rfl, h⟩
  | error e => exact absurd h (by simp [Bind.bind, Except.bind])

theorem alook_mem_keys {d : PyDict} {k : String} {v : PyVal}
    (h : alook d k = Option.some v) : k ∈ keysOf d := by
  induction d with
  | nil => simp [alook] at h
  | cons kv rest ih =>
    by_cases he : kv.1 = k
    · simp [keysOf, he]
    · simp only [alook] at h
      rw [if_neg he] at h
      simp [keysOf] at ih ⊢
      right
      exact ih h

theorem item_ok_mem {d : PyDict} {k : String} {v : PyVal}
    (h : item d k = .ok v) : k ∈ keysOf d := by
  unfold item at h
  cases hl : alook d k with
  | none => rw [hl] at h; exact absurd h (by simp)
  | some w => exact alook_mem_keys hl

theorem lookupD_of_alook {d : PyDict} {k : String} {v : PyVal}
    (h : alook d k = Option.some v) (x : PyVal) : lookupD d k x = v := by
  simp [lookupD, h]

theorem mem_keys_alook {d : PyDict} {k : String}
    (h : k ∈ keysOf d) : ∃ v, alook d k = Option.some v := by
  induction d with
  | nil => simp [keysOf] at h
  | cons kv rest ih =>
    by_cases he : kv.1 = k
    · exact ⟨kv.2, by simp [alook, he]⟩
    · simp [keysOf, Ne.symm he] at h
      obtain ⟨v, hv⟩ := ih (by simp [keysOf, h])
      exact ⟨v, by simp [alook, he, hv]⟩

theorem alook_filter_ne {d : PyDict} {k bad : String}
    (hne : k ≠ bad) :
    alook (d.filter (fun kv => kv.1 ≠ bad)) k = alook d k := by
  induction d with
  | nil => rfl
  | cons kv rest ih =>
    rw [List.filter_cons]
    simp only [ne_eq, decide_not] at ih ⊢
    by_cases hb : kv.1 = bad
    · simp [alook, hb, Ne.symm hne, ih]
    · by_cases he : kv.1 = k
      · simp [alook, hb, he, hne]
      · simp [alook, hb, he, ih]

theorem mkVariant_tag {t : VTag} {pd : PyDict} {pay : PayloadObj}
    (h : mkVariant t pd = .ok pay) : pay.tag = t := by
  unfold mkVariant at h
  obtain ⟨fs, _, h2⟩ := bindOk h
  cases h2
  rfl

theorem dispatch_tag_str {s : String} {pd : PyDict} {pay : PayloadObj}
    (h : dispatchPayload (.str s) pd = .ok pay) : pay.tag = tableTag s :=
  mkVariant_tag (by simpa [dispatchPayload] using h)

theorem alook_extras_generic {pd : PyDict} {k : String} (hk : ¬ k = "action") :
    alook (pd.filter (fun kv => (variantSpec VTag.generic).all (fun f => f.1 ≠ kv.1))) k
      = alook pd k := by
  induction pd with
  | nil => rfl
  | cons kv rest ih =>
    rw [List.filter_cons]
    by_cases hb : kv.1 = "action"
    · have h1 : ((variantSpec VTag.generic).all (fun f => f.1 ≠ kv.1)) = false := by
        simp [variantSpec, hb]
      rw [h1]
      have h2 : ¬ kv.1 = k := fun h => hk (h ▸ hb)
      simp only [ne_eq, decide_not] at ih ⊢
      simp [alook, h2, ih]
    · have h1 : ((variantSpec VTag.generic).all (fun f => f.1 ≠ kv.1)) = true := by
        simp [variantSpec]
        exact fun h => hb h.symm
      rw [h1]
      simp only [ne_eq, decide_not] at ih ⊢
      by_cases he : kv.1 = k
      · simp [alook, he]
      · simp [alook, he, ih]

theorem payloadGet_generic_aux {k : String} {av : PyVal} (hk : ¬ k = "action")
    {pd : PyDict} {v : PyVal} (hkv : alook pd k = Option.some v) :
    payloadGet ⟨VTag.generic, [("action", av)],
      pd.filter (fun kv => (variantSpec VTag.generic).all (fun f => f.1 ≠ kv.1))⟩ k
      = Option.some v := by
  have h1 : ¬ "action" = k := fun h => hk h.symm
  have h0 : alook [("action", av)] k = Option.none := by
    unfold alook
    rw [if_neg h1]
    rfl
  unfold payloadGet
  simp only [h0]
  exact (alook_extras_generic hk).trans hkv

theorem mkVariant_generic_ok {pd : PyDict} (h : genericOk pd = true) :
    ∃ pay, mkVariant VTag.generic pd = .ok pay ∧ pay.tag = VTag.generic ∧
      ∀ k v, alook pd k = Option.some v → payloadGet pay k = Option.some v := by
  unfold genericOk at h
  cases hc : alook pd "action" with
  | none =>
    refine ⟨⟨VTag.generic, [("action", PyVal.none)],
        pd.filter (fun kv => (variantSpec VTag.generic).all (fun f => f.1 ≠ kv.1))⟩, ?_, rfl, ?_⟩
    · simp [mkVariant, mkFields, variantSpec, hc, defaultOf, Bind.bind, Except.bind]
    · intro k v hkv
      by_cases hk : k = "action"
      · rw [hk] at hkv; rw [hc] at hkv; exact absurd hkv (by simp)
      · exact payloadGet_generic_aux hk hkv
  | some av =>
    rw [hc] at h
    cases av with
    | none =>
      refine ⟨⟨VTag.generic, [("action", PyVal.none)],
          pd.filter (fun kv => (variantSpec VTag.generic).all (fun f => f.1 ≠ kv.1))⟩, ?_, rfl, ?_⟩
      · simp [mkVariant, mkFields, variantSpec, hc, coerceField, Bind.bind, Except.bind]
      · intro k v hkv
        by_cases hk : k = "action"
        · rw [hk] at hkv; rw [hc] at hkv
          have hv : v = PyVal.none := by injection hkv with h2; exact h2.symm
          rw [hk, hv]
          simp [payloadGet, alook]
        · exact payloadGet_generic_aux hk hkv
    | str s =>
      refine ⟨⟨VTag.generic, [("action", PyVal.str s)],
          pd.filter (fun kv => (variantSpec VTag.generic).all (fun f => f.1 ≠ kv.1))⟩, ?_, rfl, ?_⟩
      · simp [mkVariant, mkFields, variantSpec, hc, coerceField, Bind.bind, Except.bind]
      · intro k v hkv
        by_cases hk : k = "action"
        · rw [hk] at hkv; rw [hc] at hkv
          have hv : v = PyVal.str s := by injection hkv with h2; exact h2.symm
          rw [hk, hv]
          simp [payloadGet, alook]
        · exact payloadGet_generic_aux hk hkv
    | bool b => exact absurd h (by simp)
    | int n => exact absurd h (by simp)
    | list xs => exact absurd h (by simp)
    | dict kvs => exact absurd h (by simp)
    | dtime t => exact absurd h (by simp)

/-! ### Claim C1 -/

/-- C1 counterexample: dispatch is not total on unseen event types.  For
the unknown discriminator `"BrandNewEvent"` with payload `{"action": 5}`,
the base `EventPayload(**payload)` construction fails pydantic validation
of its declared `action: Optional[str]` field (pydantic v2 does not coerce
an int to a string), so `Event.from_api_response`'s payload selection
raises instead of returning a Generic payload. -/
theorem c1_dispatch_counterexample :
    dispatchPayload (.str "BrandNewEvent") [("action", .int 5)]
      = .error .validationError := rfl

/-- C1 (amended): dispatch on a string discriminator always selects the
variant given by the sixteen-name table, with the Generic (base
`EventPayload`) class for any unknown name; the sixteen known names map to
their matching variants; and on an unknown name dispatch succeeds whenever
the payload map's only declared field `action` is absent, null, or a
string, in which case the Generic payload retains every original field
unchanged.  Dispatch is not total: it raises a pydantic ValidationError
when a declared field of the selected class holds an ill-typed value, even
for an unseen event type. -/
theorem c1_dispatch_amended :
    (∀ s pd pay, dispatchPayload (.str s) pd = .ok pay → pay.tag = tableTag s) ∧
    (tableTag "PushEvent" = .push ∧ tableTag "WatchEvent" = .watch ∧
     tableTag "CreateEvent" = .create ∧ tableTag "ForkEvent" = .fork ∧
     tableTag "IssuesEvent" = .issues ∧
     tableTag "PullRequestEvent" = .pullRequest ∧
     tableTag "IssueCommentEvent" = .issueComment ∧
     tableTag "CommitCommentEvent" = .commitComment ∧
     tableTag "PullRequestReviewEvent" = .prReview ∧
     tableTag "PullRequestReviewCommentEvent" = .prReviewComment ∧
     tableTag "DeleteEvent" = .delete ∧ tableTag "ReleaseEvent" = .release ∧
     tableTag "GollumEvent" = .gollum ∧ tableTag "MemberEvent" = .member ∧
     tableTag "PublicEvent" = .publicEvt ∧
     tableTag "SponsorshipEvent" = .sponsorship) ∧
    (∀ s pd, tableTag s = VTag.generic → genericOk pd = true →
      ∃ pay, dispatchPayload (.str s) pd = .ok pay ∧ pay.tag = VTag.generic ∧
        ∀ k v, alook pd k = Option.some v → payloadGet pay k = Option.some v) := by
  refine ⟨fun s pd pay h => dispatch_tag_str h,
    ⟨rfl, rfl, rfl, rfl, rfl, rfl, rfl, rfl, rfl, rfl, rfl, rfl, rfl, rfl, rfl, rfl⟩, ?_⟩
  intro s pd hts hok
  have h := mkVariant_generic_ok hok
  simpa [dispatchPayload, hts] using h

/-- C1 witness: the amended theorem applied at the unseen discriminator
`"BrandNewEvent"` with payload `{"foo": 1}`. -/
theorem c1_dispatch_amended_witness :
    c1pay.tag = tableTag "BrandNewEvent" ∧
    (dispatchPayload (.str "BrandNewEvent") [("foo", .int 1)]).isOk = true := by
  constructor
  · exact c1_dispatch_amended.1 "BrandNewEvent" [("foo", .int 1)] c1pay (by rfl)
  · obtain ⟨pay, h1, -, -⟩ :=
      c1_dispatch_amended.2.2 "BrandNewEvent" [("foo", .int 1)] rfl rfl
    rw [h1]
    rfl

theorem item_ok_alook {d : PyDict} {k : String} {v : PyVal}
    (h : item d k = .ok v) : alook d k = Option.some v := by
  unfold item at h
  cases hl : alook d k with
  | none => rw [hl] at h; exact absurd h (by simp)
  | some w => rw [hl] at h; injection h with h2; rw [h2]

theorem reqStrV_ok {v : PyVal} {s : String} (h : reqStrV v = .ok s) : v = .str s := by
  cases v <;> simp [reqStrV] at h
  rw [h]

theorem eventOk_inv {data : PyDict} {ev : EventObj}
    (h : eventFromApiResponse data = .ok ev) :
    ∃ pd idv tyv actorv repov pubv cav,
      asDictStar (lookupD data "payload" (.dict [])) = .ok pd ∧
      dispatchPayload (lookupD data "type" (.str "")) pd = .ok ev.payload ∧
      alook data "id" = Option.some idv ∧
      alook data "type" = Option.some tyv ∧
      alook data "actor" = Option.some actorv ∧
      alook data "repo" = Option.some repov ∧
      alook data "public" = Option.some pubv ∧
      alook data "created_at" = Option.some cav ∧
      tyv = .str ev.type := by
  simp only [eventFromApiResponse] at h
  obtain ⟨pd, h1, h⟩ := bindOk h
  obtain ⟨payload, h2, h⟩ := bindOk h
  obtain ⟨idv, h3, h⟩ := bindOk h
  obtain ⟨tyv, h4, h⟩ := bindOk h
  obtain ⟨actorv, h5, h⟩ := bindOk h
  obtain ⟨actorD, h6, h⟩ := bindOk h
  obtain ⟨actor, h7, h⟩ := bindOk h
  obtain ⟨repov, h8, h⟩ := bindOk h
  obtain ⟨repoD, h9, h⟩ := bindOk h
  obtain ⟨repo, h10, h⟩ := bindOk h
  obtain ⟨pubv, h11, h⟩ := bindOk h
  obtain ⟨cav, h12, h⟩ := bindOk h
  obtain ⟨caS, h13, h⟩ := bindOk h
  obtain ⟨created, h14, h⟩ := bindOk h
  obtain ⟨idS, h15, h⟩ := bindOk h
  obtain ⟨tyS, h16, h⟩ := bindOk h
  obtain ⟨pub, h17, h⟩ := bindOk h
  obtain ⟨org, h18, h⟩ := bindOk h
  injection h with h19
  refine ⟨pd, idv, tyv, actorv, repov, pubv, cav, h1, ?_, item_ok_alook h3,
    item_ok_alook h4, item_ok_alook h5, item_ok_alook h8, item_ok_alook h11,
    item_ok_alook h12, ?_⟩
  · rw [← h19]
    exact h2
  · rw [← h19]
    exact reqStrV_ok h16

/-! ### Claim C2 -/

/-- C2: whenever `Event.from_api_response` succeeds, the payload stored in
the resulting event is the variant that the dispatch table maps the
record's `type` string to — never a mismatched variant. -/
theorem c2_payload_variant_invariant :
    ∀ data ev, eventFromApiResponse data = .ok ev →
      ev.payload.tag = tableTag ev.type := by
  intro data ev h
  obtain ⟨pd, idv, tyv, actorv, repov, pubv, cav, h1, h2, h3, h4, h5, h6, h7, h8, h9⟩ :=
    eventOk_inv h
  rw [lookupD_of_alook h4, h9] at h2
  exact dispatch_tag_str h2

/-- C2 witness: the invariant at the concrete WatchEvent record. -/
theorem c2_payload_variant_invariant_witness :
    c2ev.payload.tag = tableTag c2ev.type :=
  c2_payload_variant_invariant watchRec c2ev (by rfl)

/-! ### Claim C4 -/

/-- C4 counterexample: a record with all six required keys present — but
whose `payload.size` is the non-numeric string `"abc"` under type
`PushEvent` — makes `Event.from_api_response` raise (pydantic
ValidationError on `PushEventPayload.size`), instead of assembling with
`payload.size` coerced to 0 as the claim states. -/
theorem c4_assembler_counterexample :
    eventFromApiResponse c4pushRec = .error .validationError ∧
    ("id" ∈ keysOf c4pushRec ∧ "type" ∈ keysOf c4pushRec ∧
     "actor" ∈ keysOf c4pushRec ∧ "repo" ∈ keysOf c4pushRec ∧
     "created_at" ∈ keysOf c4pushRec ∧ "public" ∈ keysOf c4pushRec) :=
  ⟨rfl, by decide⟩

/-- C4 (amended): `Event.from_api_response` fails whenever one of `id`,
`type`, `actor`, `repo`, `created_at`, `public` is absent (the source
raises KeyError there — the spec's `MalformedRecordError`); but absence of
those six is not the only failure mode: with all six present a malformed
`payload.size` still fails the assembly for a `PushEvent` record (pydantic
ValidationError), while for an event type whose payload class does not
declare `size` the record assembles with `payload.size` retained unchanged
(not coerced to 0). -/
theorem c4_assembler_amended :
    (∀ data,
      ¬ ("id" ∈ keysOf data ∧ "type" ∈ keysOf data ∧ "actor" ∈ keysOf data ∧
         "repo" ∈ keysOf data ∧ "created_at" ∈ keysOf data ∧
         "public" ∈ keysOf data) →
      (eventFromApiResponse data).isOk = false) ∧
    eventFromApiResponse c4pushRec = .error .validationError ∧
    (eventFromApiResponse c4fooRec).toOption.map (fun e => payloadGet e.payload "size")
      = Option.some (Option.some (.str "abc")) := by
  refine ⟨?_, rfl, rfl⟩
  intro data hmiss
  cases hres : eventFromApiResponse data with
  | error e => rfl
  | ok ev =>
    exfalso
    obtain ⟨pd, idv, tyv, actorv, repov, pubv, cav, h1, h2, h3, h4, h5, h6, h7, h8, h9⟩ :=
      eventOk_inv hres
    exact hmiss ⟨alook_mem_keys h3, alook_mem_keys h4, alook_mem_keys h5,
      alook_mem_keys h6, alook_mem_keys h8, alook_mem_keys h7⟩

/-- C4 witness: the amended theorem applied to the record missing
`created_at`. -/
theorem c4_assembler_amended_witness :
    (eventFromApiResponse c4missRec).isOk = false :=
  c4_assembler_amended.1 c4missRec (by decide)

/-! ### Claim C3 -/

/-- C3 counterexample: the integer coercions are not total and do not
default on non-numeric strings — `int(data.get('followers','0') or '0')`
raises ValueError on `"abc"` and on the comma-formatted `"1,234"` (no
comma stripping in `UserProfileConverter`), instead of returning the
claimed default 0. -/
theorem c3_coercion_counterexample :
    userStatInt (.str "abc") = .error .valueError ∧
    userStatInt (.str "1,234") = .error .valueError := ⟨rfl, rfl⟩

/-- C3 (amended): the two inline integer coercions behave as follows.  The
repository coercion strips thousands separators, so it maps `"1,234"` to
1234, and maps an absent/empty value to 0, but it raises ValueError on
non-numeric strings such as `"abc"` and on `None` (which `str()` renders
as `"None"`).  The user-profile coercion maps `None`, the empty string and
the absent-key default `"0"` to 0 and parses plain digit strings, but it
raises ValueError on `"abc"` and on comma-formatted strings such as
`"1,234"`.  Neither coercion is total on arbitrary input. -/
theorem c3_coercion_amended :
    repoCountInt (.str "1,234") = .ok 1234 ∧
    repoCountInt (.str "") = .ok 0 ∧
    repoCountInt (.str "0") = .ok 0 ∧
    repoCountInt (.str "abc") = .error .valueError ∧
    repoCountInt PyVal.none = .error .valueError ∧
    userStatInt PyVal.none = .ok 0 ∧
    userStatInt (.str "") = .ok 0 ∧
    userStatInt (.str "0") = .ok 0 ∧
    userStatInt (.str "1024") = .ok 1024 ∧
    userStatInt (.str "abc") = .error .valueError ∧
    userStatInt (.str "1,234") = .error .valueError :=
  ⟨rfl, rfl, rfl, rfl, rfl, rfl, rfl, rfl, rfl, rfl, rfl⟩

theorem convertBatch_foldl_general (now : PyVal) (mt : ModelType) :
    ∀ (records : List PyDict) (acc : List PyDict),
      records.foldl (fun acc r =>
        match convertExtractionToDomain now mt r with
        | .ok c => acc ++ [c]
        | .error _ => acc) acc
      = acc ++ records.filterMap (fun r => (convertExtractionToDomain now mt r).toOption) := by
  intro records
  induction records with
  | nil => intro acc; simp
  | cons r rest ih =>
    intro acc
    rw [List.foldl_cons, List.filterMap_cons]
    cases hc : convertExtractionToDomain now mt r with
    | ok c => simp [hc, ih, Except.toOption]
    | error e => simp [hc, ih, Except.toOption]

theorem convertBatch_eq_filterMap (now : PyVal) (mt : ModelType) (records : List PyDict) :
    convertBatch now mt records
      = records.filterMap (fun r => (convertExtractionToDomain now mt r).toOption) := by
  unfold convertBatch
  rw [convertBatch_foldl_general]
  rfl

theorem toOption_none_of_not_isOk {ε α : Type} {x : Except ε α}
    (h : x.isOk = false) : x.toOption = Option.none := by
  cases x with
  | ok v => exact absurd h (by simp [Except.isOk, Except.toBool])
  | error e => rfl

/-! ### Claim C6 -/

/-- C6: `convert_batch` applies the converter to each record independently
and returns, in input order, exactly the successful conversions; a failing
record is dropped and splits cleanly out of the batch — it neither aborts
the batch nor affects any other record's conversion. -/
theorem c6_convert_batch_isolation :
    (∀ now mt records, convertBatch now mt records
      = records.filterMap (fun r => (convertExtractionToDomain now mt r).toOption)) ∧
    (∀ now mt xs r ys, (convertExtractionToDomain now mt r).isOk = false →
      convertBatch now mt (xs ++ r :: ys)
        = convertBatch now mt xs ++ convertBatch now mt ys) := by
  refine ⟨convertBatch_eq_filterMap, ?_⟩
  intro now mt xs r ys h
  rw [convertBatch_eq_filterMap, convertBatch_eq_filterMap, convertBatch_eq_filterMap,
    List.filterMap_append, List.filterMap_cons, toOption_none_of_not_isOk h]

/-- C6 witness: a batch whose middle record (comma-formatted followers)
fails is the concatenation of the outer conversions. -/
theorem c6_convert_batch_isolation_witness :
    convertBatch (.dtime "t") .user_profile ([goodRec] ++ c7rec :: [goodRec])
      = convertBatch (.dtime "t") .user_profile [goodRec]
        ++ convertBatch (.dtime "t") .user_profile [goodRec] :=
  c6_convert_batch_isolation.2 (.dtime "t") .user_profile [goodRec] c7rec [goodRec] (by rfl)

/-! ### Claim C10 -/

/-- C10: for the `ACTIVITY` model type (the only `ModelType` member other
than `USER_PROFILE` and `REPOSITORY`), `convert_extraction_to_domain`
raises AttributeError on every record — the `model_type == ModelType.EVENT`
comparison accesses an enum member that does not exist — and therefore
`convert_batch` drops every record and returns the empty list. -/
theorem c10_activity_attribute_error :
    (∀ now data, convertExtractionToDomain now .activity data = .error .attributeError) ∧
    (∀ now records, convertBatch now .activity records = []) := by
  refine ⟨fun now data => rfl, fun now records => ?_⟩
  rw [convertBatch_eq_filterMap]
  induction records with
  | nil => rfl
  | cons r rest ih =>
    simp only [List.filterMap_cons]
    exact ih

theorem dictSet_fresh {α : Type} {d : List (String × α)} {k : String} {v : α}
    (h : d.any (fun kv => kv.1 = k) = false) : dictSet d k v = d ++ [(k, v)] := by
  simp [dictSet, h]

theorem gather_fold {ε ρ : Type} (op : String → Except ε (Option ρ)) :
    ∀ (us : List String) (acc : List (String × Option ρ)),
      us.Nodup →
      (∀ u ∈ us, acc.any (fun kv => kv.1 = u) = false) →
      (gatherResults op us).foldl (fun acc r =>
        match r with
        | .error _ => acc
        | .ok (u, ev) => dictSet acc u ev) acc
      = acc ++ us.filterMap (fun u =>
          match op u with
          | .ok v => Option.some (u, v)
          | .error _ => Option.none) := by
  intro us
  induction us with
  | nil => intro acc _ _; simp [gatherResults]
  | cons u rest ih =>
    intro acc hnd hfresh
    rw [List.filterMap_cons]
    simp only [gatherResults, List.map_cons, List.foldl_cons]
    cases hop : op u with
    | error e =>
      simp only [hop, Except.map_error]
      have := ih acc (List.Nodup.of_cons hnd)
        (fun x hx => hfresh x (List.mem_cons_of_mem u hx))
      simpa [gatherResults] using this
    | ok v =>
      have e1 : Except.map (fun ev => (u, ev)) (Except.ok v : Except ε (Option ρ))
          = Except.ok (u, v) := rfl
      simp only [e1]
      rw [dictSet_fresh (hfresh u (List.mem_cons_self u rest))]
      have hfresh2 : ∀ x ∈ rest, (acc ++ [(u, v)]).any (fun kv => kv.1 = x) = false := by
        intro x hx
        rw [List.any_append]
        have h1 := hfresh x (List.mem_cons_of_mem u hx)
        have h2 : u ≠ x := fun he => (List.nodup_cons.mp hnd).1 (he ▸ hx)
        simp [h1, h2]
      have := ih (acc ++ [(u, v)]) (List.Nodup.of_cons hnd) hfresh2
      rw [gatherResults] at this
      rw [this, List.append_assoc]
      rfl

/-! ### Claim C5 -/

/-- C5 counterexample: when the per-key operation itself raises, the
`asyncio.gather(..., return_exceptions=True)` result for that key is an
exception object, which the collection loop logs and skips — the returned
map has no entry at all for that key, not a failure entry. -/
theorem c5_batch_counterexample :
    getMultipleUserEvents (fun _ => (Except.error () : Except Unit (Option Unit))) ["a"] = [] ∧
    ((getMultipleUserEvents (fun _ => (Except.error () : Except Unit (Option Unit)))
        ["a"]).any (fun kv => kv.1 = "a")) = false := ⟨rfl, rfl⟩

/-- C5 (amended): over distinct input keys, `get_multiple_user_events`
returns exactly one entry per key whose operation completed without
raising, in input order, holding that operation's `Optional[List[Event]]`
result (`None` being the inner fetch's own caught-failure marker); a key
whose operation raised is logged and omitted from the map rather than
recorded as a failure entry, and its raising affects no sibling entry.
The result is a single complete pass over all items. -/
theorem c5_batch_executor_amended :
    ∀ (ε ρ : Type) (op : String → Except ε (Option ρ)) (us : List String),
      us.Nodup →
      getMultipleUserEvents op us
        = us.filterMap (fun u =>
            match op u with
            | .ok v => Option.some (u, v)
            | .error _ => Option.none) := by
  intro ε ρ op us h
  have := gather_fold op us [] h (by simp)
  simpa [getMultipleUserEvents] using this

/-- C5 witness: five users with the third raising — the map holds exactly
the four surviving entries, in input order. -/
theorem c5_batch_executor_amended_witness :
    getMultipleUserEvents c5op ["a", "b", "c", "d", "e"]
      = (["a", "b", "c", "d", "e"] : List String).filterMap (fun u =>
          match c5op u with
          | .ok v => Option.some (u, v)
          | .error _ => Option.none) :=
  c5_batch_executor_amended Unit Nat c5op ["a", "b", "c", "d", "e"] (by decide)

/-! ### Claim C7 -/

/-- C7 counterexample: on the extraction record
`{"username": "", "login": "octo", "followers": "1,024"}` the converter
raises ValueError — `int("1,024" or '0')` does not strip the comma — so no
UserProfile input with `stats.followers = 1024` is produced. -/
theorem c7_profile_counterexample :
    userProfileConvert (.dtime "t0") c7rec = .error .valueError := rfl

/-- C7 (amended): on the comma-free variant of the record
(`followers = "1024"`) the converter yields `username = "octo"` and
`stats.followers = 1024`; the original comma-formatted record raises
ValueError instead.  In general, an absent or empty (falsy) `username`
falls back to `data.get('login', data.get('name', 'unknown'))`: `login`
when the `login` key is present (kept even if its value is empty), else
`name` when present, else the literal `"unknown"`. -/
theorem c7_profile_amended :
    ((userProfileConvert (.dtime "t0") c7rec2).toOption.bind (fun o => alook o "username")
      = Option.some (.str "octo")) ∧
    ((userProfileConvert (.dtime "t0") c7rec2).toOption.bind (fun o =>
        match alook o "stats" with
        | Option.some (.dict st) => alook st "followers"
        | _ => Option.none)
      = Option.some (.int 1024)) ∧
    (userProfileConvert (.dtime "t0") c7rec = .error .valueError) ∧
    (∀ now data out, userProfileConvert now data = .ok out →
      truthy (lookupD data "username" (.str "")) = false →
      alook out "username"
        = Option.some (lookupD data "login" (lookupD data "name" (.str "unknown")))) := by
  refine ⟨rfl, rfl, rfl, ?_⟩
  intro now data out h htr
  simp only [userProfileConvert] at h
  obtain ⟨followers, h1, h⟩ := bindOk h
  obtain ⟨following, h2, h⟩ := bindOk h
  obtain ⟨publicRepos, h3, h⟩ := bindOk h
  obtain ⟨publicGists, h4, h⟩ := bindOk h
  injection h with h5
  rw [← h5]
  simp [alook, htr]

/-- C7 witness: the fallback clause of the amended theorem applied at the
comma-free record, whose `username` is empty. -/
theorem c7_profile_amended_witness :
    alook c7out "username"
      = Option.some (lookupD c7rec2 "login" (lookupD c7rec2 "name" (.str "unknown"))) :=
  c7_profile_amended.2.2.2 (.dtime "t0") c7rec2 c7out (by rfl) (by rfl)

/-! ### Claim C8 -/

/-- C8: `RepositoryConverter.convert` is deterministic on already-canonical
records, and derives `id` from the name hash when absent.  First part:
for a record carrying every canonical key (in particular `created_at`,
`updated_at`, `pushed_at`, the only fields whose defaults consult the
clock), the conversion does not depend on the ambient clock at all, so
converting the same record twice yields the same output map bit-for-bit.
Second part: when the record lacks an `id`, the output's `id` is exactly
`str(hash(data.get('name', 'unknown')))` — a within-process-deterministic
function of the name, not a random value. -/
theorem c8_repo_converter_deterministic :
    (∀ now1 now2 data, isCanonical data = true →
      repoConvert now1 data = repoConvert now2 data) ∧
    (∀ now data out h, alook data "id" = Option.none →
      repoConvert now data = .ok out →
      pyHashV (lookupD data "name" (.str "unknown")) = .ok h →
      alook out "id" = Option.some (.str (pyStrOf (.int h)))) := by
  constructor
  · intro now1 now2 data hc
    have hall := List.all_eq_true.mp hc
    have h1 : (alook data "created_at").isSome = true := hall "created_at" (by decide)
    have h2 : (alook data "updated_at").isSome = true := hall "updated_at" (by decide)
    have h3 : (alook data "pushed_at").isSome = true := hall "pushed_at" (by decide)
    obtain ⟨v1, hv1⟩ := Option.isSome_iff_exists.mp h1
    obtain ⟨v2, hv2⟩ := Option.isSome_iff_exists.mp h2
    obtain ⟨v3, hv3⟩ := Option.isSome_iff_exists.mp h3
    simp only [repoConvert, lookupD_of_alook hv1, lookupD_of_alook hv2,
      lookupD_of_alook hv3]
  · intro now data out h hid hok hh
    simp only [repoConvert] at hok
    obtain ⟨ownerData, g1, hok⟩ := bindOk hok
    obtain ⟨nameHash, g2, hok⟩ := bindOk hok
    obtain ⟨stars, g3, hok⟩ := bindOk hok
    obtain ⟨watchers, g4, hok⟩ := bindOk hok
    obtain ⟨forks, g5, hok⟩ := bindOk hok
    injection hok with g6
    rw [← g6]
    rw [g2] at hh
    injection hh with h7
    subst h7
    have hD : lookupD data "id" (.int nameHash) = .int nameHash := by
      simp [lookupD, hid]
    simp [alook, hD]

/-- C8 witness: the clock-independence part at a concrete canonical record
(two different clock values), and the hash-derived id at a concrete record
lacking `id`. -/
theorem c8_repo_converter_deterministic_witness :
    (repoConvert (.dtime "t1") c8rec = repoConvert (.dtime "t2") c8rec) ∧
    alook c8out2 "id" = Option.some (.str (pyStrOf (.int c8hash))) :=
  ⟨c8_repo_converter_deterministic.1 (.dtime "t1") (.dtime "t2") c8rec (by rfl),
   c8_repo_converter_deterministic.2 (.dtime "t3") c8rec2 c8out2 c8hash
     (by rfl) (by rfl) (by rfl)⟩

/-! ### Claim C9 -/

/-- C9 counterexample: a repository with a known owner whose `full_name`
is not `owner/name`.  Extraction path: `{"name": "proj", "owner":
{"login": "alice"}}` converts with `full_name = "proj"` (the converter
falls back to `name`, never joining the owner).  API path: a record with
`full_name = "weird"`, `name = "proj"` and owner `alice` is assembled with
`full_name = "weird"` (copied verbatim). -/
theorem c9_full_name_counterexample :
    ((repoConvert (.dtime "t") c9rec).toOption.bind (fun o => alook o "full_name")
      = Option.some (.str "proj")) ∧
    ((repoConvert (.dtime "t") c9rec).toOption.bind (fun o => ownerUsernameOf o)
      = Option.some (.str "alice")) ∧
    ((repoConvert (.dtime "t") c9rec).toOption.bind (fun o => alook o "name")
      = Option.some (.str "proj")) ∧
    ("proj" ≠ "alice" ++ "/" ++ "proj") ∧
    (c9apiOut.fullName = "weird" ∧ c9apiOut.owner.username = "alice" ∧
     c9apiOut.name = "proj" ∧ "weird" ≠ "alice" ++ "/" ++ "proj") :=
  ⟨rfl, rfl, rfl, by decide, rfl, rfl, rfl, by decide⟩

/-- C9 (amended): `full_name` is copied from the input record, not derived
from the owner.  `RepositoryConverter.convert` sets it to
`data.get('full_name', data.get('name', ''))`; `Repository.from_api_response`
sets it to `data.get('full_name', '')`.  It therefore equals `owner/name`
only when the input record already carries it in that form. -/
theorem c9_full_name_amended :
    (∀ now data out, repoConvert now data = .ok out →
      alook out "full_name"
        = Option.some (lookupD data "full_name" (lookupD data "name" (.str "")))) ∧
    (∀ now data out, repoFromApiResponse now data = .ok out →
      PyVal.str out.fullName = lookupD data "full_name" (.str "")) := by
  constructor
  · intro now data out hok
    simp only [repoConvert] at hok
    obtain ⟨ownerData, g1, hok⟩ := bindOk hok
    obtain ⟨nameHash, g2, hok⟩ := bindOk hok
    obtain ⟨stars, g3, hok⟩ := bindOk hok
    obtain ⟨watchers, g4, hok⟩ := bindOk hok
    obtain ⟨forks, g5, hok⟩ := bindOk hok
    injection hok with g6
    rw [← g6]
    simp [alook]
  · intro now data out hok
    simp only [repoFromApiResponse] at hok
    obtain ⟨ownerData, g1, hok⟩ := bindOk hok
    obtain ⟨ownerUsername, g2, hok⟩ := bindOk hok
    obtain ⟨ownerAvatar, g3, hok⟩ := bindOk hok
    obtain ⟨ownerType, g4, hok⟩ := bindOk hok
    obtain ⟨ownerProfile, g5, hok⟩ := bindOk hok
    obtain ⟨license, g6, hok⟩ := bindOk hok
    obtain ⟨enh, g7, hok⟩ := bindOk hok
    obtain ⟨stars, g8, hok⟩ := bindOk hok
    obtain ⟨forks, g9, hok⟩ := bindOk hok
    obtain ⟨watchers, g10, hok⟩ := bindOk hok
    obtain ⟨openIssues, g11, hok⟩ := bindOk hok
    obtain ⟨topics, g12, hok⟩ := bindOk hok
    obtain ⟨name, g13, hok⟩ := bindOk hok
    obtain ⟨fullName, g14, hok⟩ := bindOk hok
    obtain ⟨description, g15, hok⟩ := bindOk hok
    obtain ⟨url, g16, hok⟩ := bindOk hok
    obtain ⟨cloneUrl, g17, hok⟩ := bindOk hok
    obtain ⟨sshUrl, g18, hok⟩ := bindOk hok
    obtain ⟨homepage, g19, hok⟩ := bindOk hok
    obtain ⟨priv, g20, hok⟩ := bindOk hok
    obtain ⟨forkB, g21, hok⟩ := bindOk hok
    obtain ⟨archived, g22, hok⟩ := bindOk hok
    obtain ⟨disabled, g23, hok⟩ := bindOk hok
    obtain ⟨template, g24, hok⟩ := bindOk hok
    obtain ⟨language, g25, hok⟩ := bindOk hok
    obtain ⟨languages, g26, hok⟩ := bindOk hok
    obtain ⟨size, g27, hok⟩ := bindOk hok
    obtain ⟨defaultBranch, g28, hok⟩ := bindOk hok
    obtain ⟨createdAt, g29, hok⟩ := bindOk hok
    obtain ⟨updatedAt, g30, hok⟩ := bindOk hok
    obtain ⟨pushedAt, g31, hok⟩ := bindOk hok
    obtain ⟨parentFullName, g32, hok⟩ := bindOk hok
    injection hok with g33
    rw [← g33]
    rw [reqStrV_ok g14]

/-- C9 witness: both clauses of the amended theorem at the concrete
records. -/
theorem c9_full_name_amended_witness :
    (alook c9out "full_name"
      = Option.some (lookupD c9rec "full_name" (lookupD c9rec "name" (.str "")))) ∧
    PyVal.str c9apiOut.fullName = lookupD c9apiRec "full_name" (.str "") :=
  ⟨c9_full_name_amended.1 (.dtime "t") c9rec c9out (by rfl),
   c9_full_name_amended.2 "NOW" c9apiRec c9apiOut (by rfl)⟩
